import Mathlib

/-!
Verification of the generation governance core of the microlearning platform:
the cost tracker (`app/services/cost_tracker.py`), the AI service router
(`app/services/ai_service_manager.py` with `app/core/config.py`), and the
content cache (`app/services/content_cache.py`).

Python `Decimal` amounts are modelled as exact rationals, times as natural
numbers (seconds), and opaque JSON payloads as strings.  Source functions are
translated one-to-one; the Lean names follow the Python names.
-/

namespace CostTracker

/-- `ApprovalStatus` enum from `cost_tracker.py`. -/
inductive ApprovalStatus where
  | pending
  | approved
  | rejected
  | auto_approved
  | expired
deriving DecidableEq, Repr

/-- `CostTier` enum from `cost_tracker.py`. -/
inductive CostTier where
  | low
  | medium
  | high
  | critical
deriving DecidableEq, Repr

/-- `CreatorBudget` database row: the fields read by `check_budget_limits`
and `request_approval`.  `Numeric` columns are exact decimals, modelled as
rationals. -/
structure CreatorBudget where
  daily_limit : ℚ
  weekly_limit : ℚ
  monthly_limit : ℚ
  daily_spent : ℚ
  weekly_spent : ℚ
  monthly_spent : ℚ
  auto_approve_threshold : ℚ
  require_approval_above : ℚ
  is_suspended : Bool
deriving DecidableEq, Repr

/-- The column defaults of `CreatorBudget` (fresh budget created by
`_create_default_budget`): limits 50/200/500, nothing spent, thresholds 5/25,
not suspended. -/
def defaultBudget : CreatorBudget :=
  { daily_limit := 50
    weekly_limit := 200
    monthly_limit := 500
    daily_spent := 0
    weekly_spent := 0
    monthly_spent := 0
    auto_approve_threshold := 5
    require_approval_above := 25
    is_suspended := false }

/-- `CostTracker.COST_TIERS`: ordered list of bands `(tier, min, max)`;
`float(inf)` for the last band is modelled as `none` (no upper bound). -/
def COST_TIERS : List (CostTier × ℚ × Option ℚ) :=
  [(.low, 0, some 1), (.medium, 1, some 10), (.high, 10, some 100),
   (.critical, 100, none)]

/-- `CostTracker.determine_cost_tier`: first band (in insertion order) with
`min <= cost < max`, falling through to `CRITICAL`. -/
def determine_cost_tier (cost : ℚ) : CostTier :=
  match COST_TIERS.find? (fun b =>
      decide (b.2.1 ≤ cost) &&
        (match b.2.2 with
         | some mx => decide (cost < mx)
         | none => true)) with
  | some b => b.1
  | none => .critical

/-- Result dictionary of `CostTracker.check_budget_limits` (the `budget` key
is the input record and is omitted). -/
structure BudgetCheck where
  within_limits : Bool
  daily_remaining : ℚ
  weekly_remaining : ℚ
  monthly_remaining : ℚ
  auto_approve : Bool
  requires_approval : Bool
deriving DecidableEq, Repr

/-- `CostTracker.check_budget_limits` after budget resolution and the lazy
period resets: all three new totals must be within their limits and the
budget must not be suspended. -/
def check_budget_limits (budget : CreatorBudget) (estimated_cost : ℚ) :
    BudgetCheck :=
  let new_daily := budget.daily_spent + estimated_cost
  let new_weekly := budget.weekly_spent + estimated_cost
  let new_monthly := budget.monthly_spent + estimated_cost
  { within_limits :=
      decide (new_daily ≤ budget.daily_limit) &&
      decide (new_weekly ≤ budget.weekly_limit) &&
      decide (new_monthly ≤ budget.monthly_limit) &&
      !budget.is_suspended
    daily_remaining := budget.daily_limit - new_daily
    weekly_remaining := budget.weekly_limit - new_weekly
    monthly_remaining := budget.monthly_limit - new_monthly
    auto_approve := decide (estimated_cost ≤ budget.auto_approve_threshold)
    requires_approval :=
      decide (budget.require_approval_above ≤ estimated_cost) }

/-- Outcome of `CostTracker.request_approval` on the cost entry: final
approval status, the `requires_approval` flag on the entry, and whether an
`ApprovalRequest` row was created. -/
structure ApprovalOutcome where
  approval_status : ApprovalStatus
  requires_approval : Bool
  approval_request_created : Bool
deriving DecidableEq, Repr

/-- Decision logic of `CostTracker.request_approval`, as a function of the
creator budget and the estimated cost: budget violation rejects outright;
otherwise auto-approval requires both the threshold check and a LOW cost
tier; everything else becomes pending with an `ApprovalRequest`. -/
def request_approval (budget : CreatorBudget) (estimated_cost : ℚ) :
    ApprovalOutcome :=
  let cost_tier := determine_cost_tier estimated_cost
  let budget_check := check_budget_limits budget estimated_cost
  if !budget_check.within_limits then
    { approval_status := .rejected
      requires_approval := !budget_check.auto_approve
      approval_request_created := false }
  else if budget_check.auto_approve && decide (cost_tier = .low) then
    { approval_status := .auto_approved
      requires_approval := false
      approval_request_created := false }
  else
    { approval_status := .pending
      requires_approval := !budget_check.auto_approve
      approval_request_created := true }

/-- The budget of the C1 scenario: default limits, $49.00 already spent in
every period. -/
def scenarioBudget : CreatorBudget :=
  { defaultBudget with daily_spent := 49, weekly_spent := 49,
                       monthly_spent := 49 }

end CostTracker

namespace Router

/-- `ServiceTier` enum from `ai_service_manager.py`. -/
inductive ServiceTier where
  | premium
  | standard
  | budget
deriving DecidableEq, Repr

/-- `ServiceType` enum from `ai_service_manager.py`. -/
inductive ServiceType where
  | text_generation
  | image_generation
  | voice_synthesis
  | video_generation
  | music_generation
  | avatar_generation
deriving DecidableEq, Repr

/-- One value of a `*_SERVICES` configuration table in `config.py`: the
primary service id and the optional fallback id (the `model` and `voices`
fields are never read by `generate_content` and are omitted). -/
structure ServiceEntry where
  service : String
  fallback : Option String
deriving DecidableEq, Repr

/-- `AIServiceConfig.TEXT_GENERATION_SERVICES` (keys are `primary` and
`fallback`, not tier names). -/
def TEXT_GENERATION_SERVICES : List (String × ServiceEntry) :=
  [("primary", ⟨"openai", some "anthropic"⟩),
   ("fallback", ⟨"anthropic", none⟩)]

/-- `AIServiceConfig.IMAGE_GENERATION_SERVICES` (keys are `primary`,
`alternative` and `budget`). -/
def IMAGE_GENERATION_SERVICES : List (String × ServiceEntry) :=
  [("primary", ⟨"dall-e-3", some "midjourney"⟩),
   ("alternative", ⟨"midjourney", some "stable-diffusion"⟩),
   ("budget", ⟨"stable-diffusion", none⟩)]

/-- `AIServiceConfig.VOICE_SYNTHESIS_SERVICES`. -/
def VOICE_SYNTHESIS_SERVICES : List (String × ServiceEntry) :=
  [("premium", ⟨"elevenlabs", some "azure"⟩),
   ("standard", ⟨"azure", some "google"⟩),
   ("budget", ⟨"google", none⟩)]

/-- `AIServiceConfig.VIDEO_GENERATION_SERVICES`. -/
def VIDEO_GENERATION_SERVICES : List (String × ServiceEntry) :=
  [("premium", ⟨"runway", some "pika"⟩),
   ("standard", ⟨"pika", some "stable-video"⟩),
   ("budget", ⟨"stable-video", none⟩)]

/-- `AIServiceConfig.MUSIC_GENERATION_SERVICES`. -/
def MUSIC_GENERATION_SERVICES : List (String × ServiceEntry) :=
  [("premium", ⟨"suno", some "aiva"⟩),
   ("standard", ⟨"aiva", some "soundraw"⟩),
   ("budget", ⟨"soundraw", none⟩)]

/-- `AIServiceConfig.AVATAR_GENERATION_SERVICES`. -/
def AVATAR_GENERATION_SERVICES : List (String × ServiceEntry) :=
  [("premium", ⟨"synthesia", some "did"⟩),
   ("standard", ⟨"did", some "heygen"⟩),
   ("budget", ⟨"heygen", none⟩)]

/-- The `config_map` dictionary inside
`AIServiceManager._get_service_config`. -/
def config_map : ServiceType → List (String × ServiceEntry)
  | .text_generation => TEXT_GENERATION_SERVICES
  | .image_generation => IMAGE_GENERATION_SERVICES
  | .voice_synthesis => VOICE_SYNTHESIS_SERVICES
  | .video_generation => VIDEO_GENERATION_SERVICES
  | .music_generation => MUSIC_GENERATION_SERVICES
  | .avatar_generation => AVATAR_GENERATION_SERVICES

/-- The string value of a `ServiceTier` member (a `str`-enum compares equal
to its value when used as a dictionary key). -/
def tierKey : ServiceTier → String
  | .premium => "premium"
  | .standard => "standard"
  | .budget => "budget"

/-- Python `dict.get(key)` over the modelled configuration tables. -/
def dictGet (key : String) (d : List (String × ServiceEntry)) :
    Option ServiceEntry :=
  (d.find? (fun kv => kv.1 == key)).map (fun kv => kv.2)

/-- `AIServiceManager._get_service_config`:
`configs.get(tier, configs.get(ServiceTier.PREMIUM, dict()))`.  The
empty-dict default, whose subsequent `["service"]` access in
`generate_content` raises `KeyError`, is modelled as `none`. -/
def get_service_config (service_type : ServiceType) (tier : ServiceTier) :
    Option ServiceEntry :=
  match dictGet (tierKey tier) (config_map service_type) with
  | some entry => some entry
  | none => dictGet "premium" (config_map service_type)

/-- Adapter names registered per capability in
`AIServiceManager._initialize_services`; service types without an entry in
`self.services` yield the empty list (indexing them raises `KeyError`). -/
def registered_services : ServiceType → List String
  | .text_generation => ["openai", "anthropic"]
  | .image_generation => ["dall-e-3", "midjourney", "stable-diffusion"]
  | .voice_synthesis => ["elevenlabs", "azure", "google"]
  | _ => []

/-- Classified provider errors: `AIServiceError` and its subclasses
`ServiceUnavailableError` and `QuotaExceededError` - exactly the tuple
caught around the primary call in `generate_content` (the source adapters
wrap every failure in `AIServiceError`). -/
inductive ProviderError where
  | ai_service
  | service_unavailable
  | quota_exceeded
deriving DecidableEq, Repr

/-- Errors with which `generate_content` itself can fail: an uncaught
`KeyError` from a config or registry lookup, or the
`AIServiceError("All services failed for ...")` capability-exhausted
error. -/
inductive RouteError where
  | key_error
  | all_failed (service_type : ServiceType)
deriving DecidableEq, Repr

/-- The result dictionary returned by `generate_content`: the adapter
payload plus the `service_used`, `tier` and `fallback_used` entries (the
primary-success path leaves `fallback_used` unset, which reads as false). -/
structure RouteResult (α : Type) where
  payload : α
  service_used : String
  tier : ServiceTier
  fallback_used : Bool
deriving DecidableEq, Repr

/-- `AIServiceManager.generate_content`.  The behavior of every adapter
`generate` call during the execution at hand is given by
`gen service_type name`.  Returns the route outcome together with the list
of adapter invocations, in order. -/
def generate_content {α : Type}
    (gen : ServiceType → String → Except ProviderError α)
    (service_type : ServiceType) (tier : ServiceTier) :
    Except RouteError (RouteResult α) × List String :=
  match get_service_config service_type tier with
  | none => (.error .key_error, [])
  | some cfg =>
    if (registered_services service_type).contains cfg.service then
      match gen service_type cfg.service with
      | .ok payload => (.ok ⟨payload, cfg.service, tier, false⟩, [cfg.service])
      | .error _ =>
        match cfg.fallback with
        | some fb =>
          if (registered_services service_type).contains fb then
            match gen service_type fb with
            | .ok payload => (.ok ⟨payload, fb, tier, true⟩, [cfg.service, fb])
            | .error _ =>
              (.error (.all_failed service_type), [cfg.service, fb])
          else (.error (.all_failed service_type), [cfg.service])
        | none => (.error (.all_failed service_type), [cfg.service])
    else (.error .key_error, [])

/-- Adapter behavior for the C3 witness: the voice primary (elevenlabs)
raises a classified error, every other adapter succeeds. -/
def primaryFailsGen : ServiceType → String → Except ProviderError Nat :=
  fun _ name =>
    if name = "elevenlabs" then .error .service_unavailable else .ok 7

/-- Adapter behavior for the C4 witness: every adapter raises a classified
error. -/
def allFailGen : ServiceType → String → Except ProviderError Nat :=
  fun _ _ => .error .quota_exceeded

end Router

namespace Cache

/-- Whitespace-delimited groups of a character list, one group per maximal
run between whitespace characters, empty groups included (processed from the
right).  `pySplit` keeps the nonempty groups, which is Python
`str.split()`. -/
def splitGroups : List Char → List (List Char)
  | [] => [[]]
  | c :: cs =>
    let gs := splitGroups cs
    if c.isWhitespace then [] :: gs
    else
      match gs with
      | [] => [[c]]
      | g :: rest => (c :: g) :: rest

/-- Python `str.split()` on a character list: maximal nonempty runs of
non-whitespace characters. -/
def pySplit (l : List Char) : List (List Char) :=
  (splitGroups l).filter (fun g => !g.isEmpty)

/-- Python `str.strip()`: drop leading and trailing whitespace. -/
def pyStrip (l : List Char) : List Char :=
  ((l.dropWhile Char.isWhitespace).reverse.dropWhile Char.isWhitespace).reverse

/-- `" ".join(words)` on character lists. -/
def joinSpace (ws : List (List Char)) : List Char :=
  (List.intersperse [' '] ws).flatten

/-- Python `str.lower()` (ASCII; the repository only normalizes ASCII
parameter text). -/
def lowerStr (s : String) : String :=
  String.mk (s.data.map Char.toLower)

/-- The text normalization of `_normalize_parameters`:
`" ".join(value.lower().strip().split())`. -/
def normalize_text (s : String) : String :=
  String.mk (joinSpace (pySplit (pyStrip (s.data.map Char.toLower))))

/-- The whitespace-delimited word sequence of the lowercased string.  Two
strings differ only in letter case and whitespace of their text exactly when
their `wordsLower` agree. -/
def wordsLower (s : String) : List (List Char) :=
  pySplit (s.data.map Char.toLower)

/-- JSON-like parameter values of a generation request
(`input_parameters` / `normalized_params` dictionaries): strings, numbers
(`int`/`float`, modelled exactly), lists and nested string-keyed
dictionaries. -/
inductive PValue where
  | str (s : String)
  | num (q : ℚ)
  | list (items : List PValue)
  | dict (entries : List (String × PValue))

mutual

/-- Structural equality test on parameter values. -/
def pvBeq : PValue → PValue → Bool
  | .str s1, .str s2 => s1 == s2
  | .num q1, .num q2 => q1 == q2
  | .list l1, .list l2 => pvBeqList l1 l2
  | .dict d1, .dict d2 => pvBeqEntries d1 d2
  | _, _ => false

def pvBeqList : List PValue → List PValue → Bool
  | [], [] => true
  | x :: xs, y :: ys => pvBeq x y && pvBeqList xs ys
  | _, _ => false

def pvBeqEntries : List (String × PValue) → List (String × PValue) → Bool
  | [], [] => true
  | (k1, v1) :: xs, (k2, v2) :: ys =>
      k1 == k2 && pvBeq v1 v2 && pvBeqEntries xs ys
  | _, _ => false

end

instance : BEq PValue := ⟨pvBeq⟩

/-- Python `dict.get(key)` on a parameter dictionary. -/
def pvGet (key : String) (d : List (String × PValue)) : Option PValue :=
  (d.find? (fun kv => kv.1 == key)).map (fun kv => kv.2)

/-- Python `str(x)` as used on sorted-list elements and fuzzy-compared
scalar values; strings render as themselves, numbers as their decimal text
(collections never reach this rendering in the modelled flows and are
abstracted by a constant tag). -/
def pyStr : PValue → String
  | .str s => s
  | .num q => toString q
  | .list _ => "list"
  | .dict _ => "dict"

/-- `sorted(value)` on a list whose elements are all strings. -/
def sortStrValues (items : List PValue) : List PValue :=
  List.insertionSort (fun a b => pyStr a ≤ pyStr b) items

mutual

/-- `_normalize_parameters` on one value: strings are case-folded and
whitespace-collapsed, numbers pass through unchanged, all-string lists are
sorted (elements unchanged), other lists pass through, nested dictionaries
recurse.  (`PValue` has no members for the `else: str(value)` branch, which
only non-JSON values reach.) -/
def normalizeValue : PValue → PValue
  | .str s => .str (normalize_text s)
  | .num q => .num q
  | .list items =>
      if items.all fun v => match v with | .str _ => true | _ => false then
        .list (sortStrValues items)
      else .list items
  | .dict entries => .dict (normalizeEntries entries)

def normalizeEntries : List (String × PValue) → List (String × PValue)
  | [] => []
  | (k, v) :: rest => (k, normalizeValue v) :: normalizeEntries rest

end

/-- `ContentCacheManager._normalize_parameters`. -/
def normalize_parameters (params : List (String × PValue)) :
    List (String × PValue) :=
  normalizeEntries params

/-- `", ".join(parts)`. -/
def joinComma (parts : List String) : String :=
  String.intercalate ", " parts

mutual

/-- `json.dumps(value, sort_keys=True)` with the default separators; the
entries of every object are rendered and then ordered by key. -/
def dumpsValue : PValue → String
  | .str s => "\"" ++ s ++ "\""
  | .num q => toString q
  | .list items => "[" ++ joinComma (dumpsList items) ++ "]"
  | .dict entries =>
      "\x7b" ++
        joinComma ((List.insertionSort (fun a b => a.1 ≤ b.1)
          (dumpsEntries entries)).map (fun kv => kv.2)) ++ "\x7d"

def dumpsList : List PValue → List String
  | [] => []
  | v :: rest => dumpsValue v :: dumpsList rest

def dumpsEntries : List (String × PValue) → List (String × String)
  | [] => []
  | (k, v) :: rest =>
      (k, "\"" ++ k ++ "\": " ++ dumpsValue v) :: dumpsEntries rest

end

/-- `json.dumps(normalized, sort_keys=True)` on the normalized parameter
dictionary. -/
def dumps_sorted (params : List (String × PValue)) : String :=
  dumpsValue (.dict params)

/-- `CacheType` enum from `content_cache.py`. -/
inductive CacheType where
  | script
  | image
  | voice
  | video
  | music
  | quiz
  | complete_content
deriving DecidableEq, Repr

/-- The string value of a cache type, as interpolated into the cache key. -/
def cacheTypeKey : CacheType → String
  | .script => "script"
  | .image => "image"
  | .voice => "voice"
  | .video => "video"
  | .music => "music"
  | .quiz => "quiz"
  | .complete_content => "complete_content"

/-- Python slicing `s[:n]` (by code points). -/
def strTake (s : String) (n : Nat) : String :=
  String.mk (s.data.take n)

/-- `ContentCacheManager._create_cache_key`: normalize the parameters,
serialize them with deterministic key ordering, hash, keep the first 16 hex
digits, namespace by cache type.  The SHA-256 hex digest is the parameter
`hash`; every property proved below holds for an arbitrary digest
function. -/
def create_cache_key (hash : String → String) (cache_type : CacheType)
    (parameters : List (String × PValue)) : String :=
  "content_cache:" ++ cacheTypeKey cache_type ++ ":" ++
    strTake (hash (dumps_sorted (normalize_parameters parameters))) 16

/-- Equivalence of parameter values up to the letter case and whitespace of
string values: strings must have identical lowercased word sequences,
numbers and lists must be identical, and nested dictionaries must
correspond entry by entry (same keys in the same order) with equivalent
values. -/
inductive PVEquiv : PValue → PValue → Prop where
  | str (s1 s2 : String) : wordsLower s1 = wordsLower s2 →
      PVEquiv (.str s1) (.str s2)
  | num (q : ℚ) : PVEquiv (.num q) (.num q)
  | list (items : List PValue) : PVEquiv (.list items) (.list items)
  | dict_nil : PVEquiv (.dict []) (.dict [])
  | dict_cons (k : String) (v1 v2 : PValue)
      (d1 d2 : List (String × PValue)) :
      PVEquiv v1 v2 → PVEquiv (.dict d1) (.dict d2) →
      PVEquiv (.dict ((k, v1) :: d1)) (.dict ((k, v2) :: d2))

end Cache

namespace Cache

/-- `CacheStrategy` enum from `content_cache.py`. -/
inductive CacheStrategy where
  | exact_match
  | semantic_match
  | template_match
  | fuzzy_match
deriving DecidableEq, Repr

/-- The `ttl` column of `ContentCacheManager.cache_config`; `MUSIC` has no
configuration entry, so indexing it raises `KeyError` (`none`). -/
def cacheTtl : CacheType → Option Nat
  | .script => some (86400 * 30)
  | .image => some (86400 * 7)
  | .voice => some (86400 * 14)
  | .video => some (86400 * 7)
  | .quiz => some (86400 * 60)
  | .complete_content => some (86400 * 14)
  | .music => none

/-- The `strategy` column of `ContentCacheManager.cache_config`. -/
def cacheStrategyOf : CacheType → Option CacheStrategy
  | .script => some .semantic_match
  | .image => some .fuzzy_match
  | .voice => some .exact_match
  | .video => some .template_match
  | .quiz => some .semantic_match
  | .complete_content => some .exact_match
  | .music => none

/-- A `ContentCacheEntry` row: the columns read or written by the lookup
strategies (`content_data` is the JSON payload, kept opaque as a string;
the JSON round-trip through the volatile tier is the identity). -/
structure Entry where
  cache_key : String
  cache_type : CacheType
  normalized_params : List (String × PValue)
  content_data : String
  hit_count : Nat
  last_accessed : Option Nat
  expires_at : Nat
  is_active : Bool
deriving BEq

/-- One volatile-tier (Redis) record: `SETEX key ttl value` at time `now`
stores absolute expiry `now + ttl`. -/
structure RedisEntry where
  key : String
  value : String
  expires_at : Nat
deriving DecidableEq

/-- The volatile tier; `none` models an absent or failed Redis client (the
source degrades to durable-only operation). -/
abbrev RedisState : Type := Option (List RedisEntry)

/-- `redis.get(key)` at time `now`: a stored value is visible until its
expiry. -/
def redisGet (r : RedisState) (key : String) (now : Nat) : Option String :=
  match r with
  | none => none
  | some store =>
    match store.find? (fun e => e.key == key) with
    | some e => if now < e.expires_at then some e.value else none
    | none => none

/-- `redis.setex(key, ttl, value)` at time `now`. -/
def redisSetex (r : RedisState) (key value : String) (ttl now : Nat) :
    RedisState :=
  match r with
  | none => none
  | some store =>
      some (⟨key, value, now + ttl⟩ :: store.filter (fun e => !(e.key == key)))

/-- Mutate the first entry satisfying `p` (the row object the query
returned). -/
def replaceFirst (p : Entry → Bool) (f : Entry → Entry) :
    List Entry → List Entry
  | [] => []
  | e :: rest => if p e then f e :: rest else e :: replaceFirst p f rest

/-- The hit-statistics mutation every successful lookup performs:
`hit_count += 1; last_accessed = utcnow()`. -/
def bumpEntry (now : Nat) (e : Entry) : Entry :=
  { e with hit_count := e.hit_count + 1, last_accessed := some now }

/-- `ContentCacheManager._update_cache_stats` (volatile-hit bookkeeping):
bump the row with the given cache key. -/
def update_cache_stats (db : List Entry) (key : String) (now : Nat) :
    List Entry :=
  replaceFirst (fun e => e.cache_key == key) (bumpEntry now) db

/-- The durable-tier filter of `_get_exact_match`:
`cache_key == key AND is_active AND expires_at > utcnow()`. -/
def exactPred (key : String) (now : Nat) (e : Entry) : Bool :=
  e.cache_key == key && e.is_active && decide (now < e.expires_at)

/-- `ContentCacheManager._get_exact_match` over the volatile and durable
tiers at time `now`: volatile first (no expiry or active re-check beyond
Redis own TTL), then the durable query; on a durable hit the statistics are
committed and the payload is written back to the volatile tier with the
full configured TTL (a missing TTL configuration raises inside the same
try-block, which swallows the lookup into a miss after the commit). -/
def get_exact_match (hash : String → String) (ct : CacheType)
    (params : List (String × PValue)) (redis : RedisState)
    (db : List Entry) (now : Nat) :
    Option String × RedisState × List Entry :=
  match redisGet redis (create_cache_key hash ct params) now with
  | some cached =>
      (some cached, redis,
       update_cache_stats db (create_cache_key hash ct params) now)
  | none =>
    match db.find? (exactPred (create_cache_key hash ct params) now) with
    | some entry =>
      match redis with
      | none =>
          (some entry.content_data, none,
           replaceFirst (exactPred (create_cache_key hash ct params) now)
             (bumpEntry now) db)
      | some store =>
        match cacheTtl ct with
        | some ttl =>
            (some entry.content_data,
             redisSetex (some store) (create_cache_key hash ct params)
               entry.content_data ttl now,
             replaceFirst (exactPred (create_cache_key hash ct params) now)
               (bumpEntry now) db)
        | none =>
            (none, some store,
             replaceFirst (exactPred (create_cache_key hash ct params) now)
               (bumpEntry now) db)
    | none => (none, redis, db)

/-- `ContentCacheManager.cache_content` (the fields the lookups read): a
missing TTL configuration raises `KeyError` to the caller (`none`);
otherwise the payload is stored in the volatile tier with the configured
TTL and appended to the durable tier with `expires_at = now + ttl`. -/
def cache_content (hash : String → String) (ct : CacheType)
    (params : List (String × PValue)) (content : String)
    (redis : RedisState) (db : List Entry) (now : Nat) :
    Option (String × RedisState × List Entry) :=
  match cacheTtl ct with
  | none => none
  | some ttl =>
    let cache_key := create_cache_key hash ct params
    some (cache_key,
      redisSetex redis cache_key content ttl now,
      db ++ [{ cache_key := cache_key
               cache_type := ct
               normalized_params := normalize_parameters params
               content_data := content
               hit_count := 0
               last_accessed := none
               expires_at := now + ttl
               is_active := true }])

/-- `ContentCacheManager._calculate_text_similarity`: token-set Jaccard
similarity of the whitespace-separated word sets, zero when either set is
empty. -/
def calculate_text_similarity (text1 text2 : String) : ℚ :=
  let words1 := ((pySplit text1.data).map (fun w => String.mk w)).toFinset
  let words2 := ((pySplit text2.data).map (fun w => String.mk w)).toFinset
  if words1 = ∅ ∨ words2 = ∅ then 0
  else ((words1 ∩ words2).card : ℚ) / ((words1 ∪ words2).card : ℚ)

/-- `parameters.get("concept", parameters.get("prompt", ""))` followed by
the truthiness guard of `_get_semantic_match`; a falsy value returns `None`
at once and a truthy non-string raises on `.lower()` inside the try-block,
which also ends in `None` - both are `none` here. -/
def semantic_concept (params : List (String × PValue)) : Option String :=
  match (pvGet "concept" params).getD ((pvGet "prompt" params).getD
      (.str "")) with
  | .str s => if s = "" then none else some s
  | _ => none

/-- `parameters.get("age_group", "")`; a non-string value makes the
filtered query fail inside the try-block, degrading the lookup to a miss
(`none`). -/
def semantic_age_group (params : List (String × PValue)) : Option String :=
  match pvGet "age_group" params with
  | none => some ""
  | some (.str s) => some s
  | some _ => none

/-- The `->> / astext` text form of a JSON value in the age-group filter
(collections are abstracted to `none`: their JSON text never equals an
age-group scalar). -/
def pvAstext : PValue → Option String
  | .str s => some s
  | .num q => some (toString q)
  | _ => none

/-- The stored concept of an entry:
`normalized_params.get("concept", normalized_params.get("prompt", ""))`;
a non-string raises on `.lower()` inside the scan and the whole lookup
degrades to a miss (`none`). -/
def stored_concept (e : Entry) : Option String :=
  match (pvGet "concept" e.normalized_params).getD
      ((pvGet "prompt" e.normalized_params).getD (.str "")) with
  | .str s => some s
  | _ => none

/-- The durable query of `_get_semantic_match`: same cache type, active,
unexpired, same age group (a missing `age_group` key gives SQL `NULL`,
which never satisfies the equality), first 10 rows. -/
def semantic_candidates (ct : CacheType) (age_group : String)
    (db : List Entry) (now : Nat) : List Entry :=
  (db.filter (fun e => e.cache_type == ct && e.is_active &&
    decide (now < e.expires_at) &&
    (((pvGet "age_group" e.normalized_params).bind pvAstext) ==
      some age_group))).take 10

/-- The best-candidate scan of `_get_semantic_match`: keep the candidate
whenever its similarity strictly exceeds both the best so far and the 0.80
threshold; a non-string stored concept raises and aborts the scan (outer
`none`). -/
def semantic_loop (concept : String) :
    List Entry → Option Entry → ℚ → Option (Option Entry)
  | [], best, _ => some best
  | e :: rest, best, best_similarity =>
    match stored_concept e with
    | none => none
    | some sc =>
      let similarity :=
        calculate_text_similarity (lowerStr concept) (lowerStr sc)
      if best_similarity < similarity ∧ (4 : ℚ) / 5 < similarity then
        semantic_loop concept rest (some e) similarity
      else
        semantic_loop concept rest best best_similarity

/-- `ContentCacheManager._get_semantic_match` (returned payload and durable
state; the mutated row is identified structurally). -/
def get_semantic_match (ct : CacheType) (params : List (String × PValue))
    (db : List Entry) (now : Nat) : Option String × List Entry :=
  match semantic_concept params, semantic_age_group params with
  | some concept, some age_group =>
    match semantic_loop concept (semantic_candidates ct age_group db now)
        none 0 with
    | none => (none, db)
    | some none => (none, db)
    | some (some best) =>
        (some best.content_data,
         replaceFirst (fun e => e == best) (bumpEntry now) db)
  | _, _ => (none, db)

/-- The per-value similarity of `_parameters_fuzzy_match`: proportional
deviation for two numbers (with the zero guard), token-set Jaccard on the
`str()` forms otherwise. -/
def fuzzy_value_similarity : PValue → PValue → ℚ
  | .num a, .num b =>
      if a = 0 ∨ b = 0 then (if a = b then 1 else 0)
      else 1 - |a - b| / max a b
  | v1, v2 => calculate_text_similarity (pyStr v1) (pyStr v2)

/-- The hard keys of `_parameters_fuzzy_match`. -/
def key_params : List String := ["age_group", "subject_area"]

/-- The soft keys of `_parameters_fuzzy_match`. -/
def fuzzy_params : List String := ["difficulty_level", "duration"]

/-- One soft-key step of `_parameters_fuzzy_match`: a key present in both
dictionaries adds one to `total` (`acc.2`) and, when its similarity reaches
0.80, one to `matches` (`acc.1`); a key missing on either side leaves the
counters untouched. -/
def fuzzy_soft_step (params1 params2 : List (String × PValue))
    (acc : Nat × Nat) (k : String) : Nat × Nat :=
  match pvGet k params1, pvGet k params2 with
  | some val1, some val2 =>
      ((if (4 : ℚ) / 5 ≤ fuzzy_value_similarity val1 val2 then acc.1 + 1
        else acc.1),
       acc.2 + 1)
  | _, _ => acc

/-- `ContentCacheManager._parameters_fuzzy_match`: the hard keys must agree
under `dict.get` (two missing keys agree as `None`); the soft-key counters
accumulate over `fuzzy_params`; accept when `total == 0` or the match ratio
reaches 0.80. -/
def parameters_fuzzy_match (params1 params2 : List (String × PValue)) :
    Bool :=
  if key_params.all (fun k => pvGet k params1 == pvGet k params2) then
    decide ((fuzzy_params.foldl (fuzzy_soft_step params1 params2)
      ((0 : Nat), (0 : Nat))).2 = 0) ||
    decide ((4 : ℚ) / 5 ≤
      ((fuzzy_params.foldl (fuzzy_soft_step params1 params2)
        ((0 : Nat), (0 : Nat))).1 : ℚ) /
      ((fuzzy_params.foldl (fuzzy_soft_step params1 params2)
        ((0 : Nat), (0 : Nat))).2 : ℚ))
  else false

/-- The durable filter shared by the fuzzy and template scans: same cache
type, active, unexpired. -/
def alivePred (ct : CacheType) (now : Nat) (e : Entry) : Bool :=
  e.cache_type == ct && e.is_active && decide (now < e.expires_at)

/-- `ContentCacheManager._get_fuzzy_match`: normalize the query, scan the
first 20 alive rows of the cache type, return the first fuzzy match. -/
def get_fuzzy_match (ct : CacheType) (params : List (String × PValue))
    (db : List Entry) (now : Nat) : Option String × List Entry :=
  match ((db.filter (alivePred ct now)).take 20).find?
      (fun e => parameters_fuzzy_match (normalize_parameters params)
        e.normalized_params) with
  | some entry =>
      (some entry.content_data,
       replaceFirst (fun e => e == entry) (bumpEntry now) db)
  | none => (none, db)

/-- The template dictionary of `_get_template_match`
(`parameters.get(...)` for the four structural keys). -/
def template_params (params : List (String × PValue)) :
    List (String × Option PValue) :=
  [("age_group", pvGet "age_group" params),
   ("subject_area", pvGet "subject_area" params),
   ("difficulty_level", pvGet "difficulty_level" params),
   ("video_duration", pvGet "video_duration" params)]

/-- `ContentCacheManager._template_parameters_match`: every non-`None`
template value must equal the stored value. -/
def template_parameters_match (tp : List (String × Option PValue))
    (stored : List (String × PValue)) : Bool :=
  tp.all (fun kv =>
    match kv.2 with
    | none => true
    | some v => pvGet kv.1 stored == some v)

/-- `ContentCacheManager._get_template_match`: scan every alive row of the
cache type, return the first template match. -/
def get_template_match (ct : CacheType) (params : List (String × PValue))
    (db : List Entry) (now : Nat) : Option String × List Entry :=
  match (db.filter (alivePred ct now)).find?
      (fun e => template_parameters_match (template_params params)
        e.normalized_params) with
  | some entry =>
      (some entry.content_data,
       replaceFirst (fun e => e == entry) (bumpEntry now) db)
  | none => (none, db)

/-- The similarity `_get_semantic_match` computes for one candidate (zero
stands in for the non-string case, which aborts the scan anyway). -/
def storedSimilarity (concept : String) (e : Entry) : ℚ :=
  match stored_concept e with
  | some sc => calculate_text_similarity (lowerStr concept) (lowerStr sc)
  | none => 0

/-- Durable state after caching a voice payload at time 0 with the volatile
tier absent (voice TTL is 14 days = 1209600 s, so the row expires at
1209600). -/
def c7_db0 : List Entry :=
  match cache_content (fun s => s) .voice [] "stale payload" none [] 0 with
  | some r => r.2.2
  | none => []

/-- An exact-match lookup one second before the durable expiry, with the
volatile tier now present but empty: durable hit, volatile back-fill with
the full TTL. -/
def c7_step : Option String × RedisState × List Entry :=
  get_exact_match (fun s => s) .voice [] (some []) c7_db0 1209599

/-- The same lookup at the durable expiry instant. -/
def c7_out : Option String × RedisState × List Entry :=
  get_exact_match (fun s => s) .voice [] c7_step.2.1 c7_step.2.2 1209600

/-- A voice cache row with 10 seconds of remaining life at time 90. -/
def c9_entry : Entry :=
  { cache_key := create_cache_key (fun s => s) .voice []
    cache_type := .voice
    normalized_params := []
    content_data := "cached audio"
    hit_count := 3
    last_accessed := none
    expires_at := 100
    is_active := true }

/-- The C8 scenario query: new prompt with age group 10. -/
def c8_params : List (String × PValue) :=
  [("concept", .str "water cycle explained simply for kids"),
   ("age_group", .str "10")]

/-- The C8 scenario cached entry: stored prompt with the same age group. -/
def c8_entry : Entry :=
  { cache_key := "stored-key"
    cache_type := .script
    normalized_params :=
      [("concept", .str "the water cycle explained simply"),
       ("age_group", .str "10")]
    content_data := "stored script"
    hit_count := 0
    last_accessed := none
    expires_at := 100
    is_active := true }

/-- The C10 scenario query: only the two hard keys, no soft keys. -/
def c10_params : List (String × PValue) :=
  [("age_group", .str "10"), ("subject_area", .str "math")]

/-- The C10 scenario cached entry: hard keys equal to the query, soft keys
absent. -/
def c10_entry : Entry :=
  { cache_key := "image-key"
    cache_type := .image
    normalized_params :=
      [("age_group", .str "10"), ("subject_area", .str "math")]
    content_data := "image url"
    hit_count := 0
    last_accessed := none
    expires_at := 100
    is_active := true }

end Cache

namespace CostTracker

/-- Case characterization of `determine_cost_tier` over the ordered band
list (negative costs fall through every band and land on CRITICAL). -/
theorem determine_cost_tier_eq_ite (c : ℚ) :
    determine_cost_tier c =
      if 0 ≤ c ∧ c < 1 then .low
      else if 1 ≤ c ∧ c < 10 then .medium
      else if 10 ≤ c ∧ c < 100 then .high
      else .critical := by
  rcases lt_or_le c 0 with hneg | h0
  · have e0 : decide ((0 : ℚ) ≤ c) = false := decide_eq_false (by linarith)
    have e1 : decide ((1 : ℚ) ≤ c) = false := decide_eq_false (by linarith)
    have e10 : decide ((10 : ℚ) ≤ c) = false := decide_eq_false (by linarith)
    have e100 : decide ((100 : ℚ) ≤ c) = false := decide_eq_false (by linarith)
    rw [if_neg (by rintro ⟨h, -⟩; linarith), if_neg (by rintro ⟨h, -⟩; linarith),
        if_neg (by rintro ⟨h, -⟩; linarith)]
    simp [determine_cost_tier, COST_TIERS, List.find?, e0, e1, e10, e100]
  · rcases lt_or_le c 1 with h1 | h1
    · rw [if_pos ⟨h0, h1⟩]
      simp [determine_cost_tier, COST_TIERS, List.find?,
        decide_eq_true h0, decide_eq_true h1]
    · rcases lt_or_le c 10 with h10 | h10
      · rw [if_neg (by rintro ⟨-, hx⟩; linarith), if_pos ⟨h1, h10⟩]
        have e1 : decide (c < 1) = false := decide_eq_false (by linarith)
        simp [determine_cost_tier, COST_TIERS, List.find?, e1,
          decide_eq_true h0, decide_eq_true h1, decide_eq_true h10]
      · rcases lt_or_le c 100 with h100 | h100
        · rw [if_neg (by rintro ⟨-, hx⟩; linarith),
              if_neg (by rintro ⟨-, hx⟩; linarith), if_pos ⟨h10, h100⟩]
          have e1 : decide (c < 1) = false := decide_eq_false (by linarith)
          have e2 : decide (c < 10) = false := decide_eq_false (by linarith)
          simp [determine_cost_tier, COST_TIERS, List.find?, e1, e2,
            decide_eq_true h0, decide_eq_true h10, decide_eq_true h100]
        · rw [if_neg (by rintro ⟨-, hx⟩; linarith),
              if_neg (by rintro ⟨-, hx⟩; linarith),
              if_neg (by rintro ⟨-, hx⟩; linarith)]
          have e1 : decide (c < 1) = false := decide_eq_false (by linarith)
          have e2 : decide (c < 10) = false := decide_eq_false (by linarith)
          have e3 : decide (c < 100) = false := decide_eq_false (by linarith)
          simp [determine_cost_tier, COST_TIERS, List.find?, e1, e2, e3,
            decide_eq_true h0, decide_eq_true (by linarith : (100 : ℚ) ≤ c)]

/-- C5: `determine_cost_tier` maps every (nonnegative) cost to exactly one
tier via inclusive-low, exclusive-high bands LOW `[0,1)`, MEDIUM `[1,10)`,
HIGH `[10,100)`, CRITICAL `[100,inf)`; in particular the tier of `1.00` is
MEDIUM and the tier of `0.9999` is LOW. -/
theorem C5_cost_tier_bands :
    (∀ c : ℚ, 0 ≤ c →
       (determine_cost_tier c = .low ↔ c < 1) ∧
       (determine_cost_tier c = .medium ↔ 1 ≤ c ∧ c < 10) ∧
       (determine_cost_tier c = .high ↔ 10 ≤ c ∧ c < 100) ∧
       (determine_cost_tier c = .critical ↔ 100 ≤ c)) ∧
    determine_cost_tier 1 = .medium ∧
    determine_cost_tier (9999 / 10000) = .low := by
  refine ⟨?_, ?_, ?_⟩
  · intro c hc
    rw [determine_cost_tier_eq_ite]
    rcases lt_or_le c 1 with h1 | h1
    · rw [if_pos ⟨hc, h1⟩]
      exact ⟨iff_of_true rfl h1,
        iff_of_false (by simp) (by rintro ⟨hx, -⟩; linarith),
        iff_of_false (by simp) (by rintro ⟨hx, -⟩; linarith),
        iff_of_false (by simp) (by intro hx; linarith)⟩
    · rcases lt_or_le c 10 with h10 | h10
      · rw [if_neg (by rintro ⟨-, hx⟩; linarith), if_pos ⟨h1, h10⟩]
        exact ⟨iff_of_false (by simp) (by intro hx; linarith),
          iff_of_true rfl ⟨h1, h10⟩,
          iff_of_false (by simp) (by rintro ⟨hx, -⟩; linarith),
          iff_of_false (by simp) (by intro hx; linarith)⟩
      · rcases lt_or_le c 100 with h100 | h100
        · rw [if_neg (by rintro ⟨-, hx⟩; linarith),
              if_neg (by rintro ⟨-, hx⟩; linarith), if_pos ⟨h10, h100⟩]
          exact ⟨iff_of_false (by simp) (by intro hx; linarith),
            iff_of_false (by simp) (by rintro ⟨-, hx⟩; linarith),
            iff_of_true rfl ⟨h10, h100⟩,
            iff_of_false (by simp) (by intro hx; linarith)⟩
        · rw [if_neg (by rintro ⟨-, hx⟩; linarith),
              if_neg (by rintro ⟨-, hx⟩; linarith),
              if_neg (by rintro ⟨-, hx⟩; linarith)]
          exact ⟨iff_of_false (by simp) (by intro hx; linarith),
            iff_of_false (by simp) (by rintro ⟨-, hx⟩; linarith),
            iff_of_false (by simp) (by rintro ⟨-, hx⟩; linarith),
            iff_of_true rfl h100⟩
  · norm_num [determine_cost_tier, COST_TIERS, List.find?]
  · norm_num [determine_cost_tier, COST_TIERS, List.find?]

/-- C5 witness: the band characterization applied at cost 1. -/
theorem C5_cost_tier_bands_witness :
    (0 : ℚ) ≤ 1 ∧ determine_cost_tier 1 = .medium :=
  ⟨by norm_num,
   ((C5_cost_tier_bands.1 1 (by norm_num)).2.1).mpr (by norm_num)⟩

/-- C1: if adding the estimate to any of the three spent totals exceeds the
corresponding limit, or the budget is suspended, the budget check reports
`within_limits = false` with each remaining value equal to
limit - (spent + estimate), and `request_approval` rejects the entry with no
`ApprovalRequest`; the scenario (daily limit 50, spent 49, estimate 2) ends
with daily remaining -1 and status REJECTED. -/
theorem C1_budget_exceeded_rejects :
    (∀ (budget : CreatorBudget) (cost : ℚ),
       (budget.daily_limit < budget.daily_spent + cost ∨
        budget.weekly_limit < budget.weekly_spent + cost ∨
        budget.monthly_limit < budget.monthly_spent + cost ∨
        budget.is_suspended = true) →
       (check_budget_limits budget cost).within_limits = false ∧
       (check_budget_limits budget cost).daily_remaining =
         budget.daily_limit - (budget.daily_spent + cost) ∧
       (check_budget_limits budget cost).weekly_remaining =
         budget.weekly_limit - (budget.weekly_spent + cost) ∧
       (check_budget_limits budget cost).monthly_remaining =
         budget.monthly_limit - (budget.monthly_spent + cost) ∧
       (request_approval budget cost).approval_status = .rejected ∧
       (request_approval budget cost).approval_request_created = false) ∧
    (check_budget_limits scenarioBudget 2).within_limits = false ∧
    (check_budget_limits scenarioBudget 2).daily_remaining = -1 ∧
    (request_approval scenarioBudget 2).approval_status = .rejected ∧
    (request_approval scenarioBudget 2).approval_request_created = false := by
  have main : ∀ (budget : CreatorBudget) (cost : ℚ),
      (budget.daily_limit < budget.daily_spent + cost ∨
       budget.weekly_limit < budget.weekly_spent + cost ∨
       budget.monthly_limit < budget.monthly_spent + cost ∨
       budget.is_suspended = true) →
      (check_budget_limits budget cost).within_limits = false ∧
      (check_budget_limits budget cost).daily_remaining =
        budget.daily_limit - (budget.daily_spent + cost) ∧
      (check_budget_limits budget cost).weekly_remaining =
        budget.weekly_limit - (budget.weekly_spent + cost) ∧
      (check_budget_limits budget cost).monthly_remaining =
        budget.monthly_limit - (budget.monthly_spent + cost) ∧
      (request_approval budget cost).approval_status = .rejected ∧
      (request_approval budget cost).approval_request_created = false := by
    intro budget cost h
    have hw : (check_budget_limits budget cost).within_limits = false := by
      rcases h with h | h | h | h
      · simp [check_budget_limits, decide_eq_false (not_le.mpr h)]
      · simp [check_budget_limits, decide_eq_false (not_le.mpr h)]
      · simp [check_budget_limits, decide_eq_false (not_le.mpr h)]
      · simp [check_budget_limits, h]
    exact ⟨hw, by simp [check_budget_limits], by simp [check_budget_limits],
      by simp [check_budget_limits], by simp [request_approval, hw],
      by simp [request_approval, hw]⟩
  have hscen : scenarioBudget.daily_limit <
      scenarioBudget.daily_spent + 2 := by
    norm_num [scenarioBudget, defaultBudget]
  have h2 := main scenarioBudget 2 (Or.inl hscen)
  refine ⟨main, h2.1, ?_, h2.2.2.2.2.1, h2.2.2.2.2.2⟩
  rw [h2.2.1]
  norm_num [scenarioBudget, defaultBudget]

/-- C1 witness: the theorem applied to the concrete scenario budget. -/
theorem C1_budget_exceeded_rejects_witness :
    (scenarioBudget.daily_limit < scenarioBudget.daily_spent + 2 ∨
     scenarioBudget.weekly_limit < scenarioBudget.weekly_spent + 2 ∨
     scenarioBudget.monthly_limit < scenarioBudget.monthly_spent + 2 ∨
     scenarioBudget.is_suspended = true) ∧
    ((check_budget_limits scenarioBudget 2).within_limits = false ∧
     (check_budget_limits scenarioBudget 2).daily_remaining =
       scenarioBudget.daily_limit - (scenarioBudget.daily_spent + 2) ∧
     (check_budget_limits scenarioBudget 2).weekly_remaining =
       scenarioBudget.weekly_limit - (scenarioBudget.weekly_spent + 2) ∧
     (check_budget_limits scenarioBudget 2).monthly_remaining =
       scenarioBudget.monthly_limit - (scenarioBudget.monthly_spent + 2) ∧
     (request_approval scenarioBudget 2).approval_status = .rejected ∧
     (request_approval scenarioBudget 2).approval_request_created = false) :=
  ⟨Or.inl (by norm_num [scenarioBudget, defaultBudget]),
   C1_budget_exceeded_rejects.1 scenarioBudget 2
     (Or.inl (by norm_num [scenarioBudget, defaultBudget]))⟩

/-- C2: `request_approval` auto-approves exactly when the budget check
passes, the cost is at most the auto-approve threshold, and the tier is LOW;
an auto-approved entry creates no `ApprovalRequest`; a non-LOW tier is never
auto-approved; and the $0.30 scenario on a fresh default budget ends
AUTO_APPROVED with no request created. -/
theorem C2_auto_approval_iff :
    (∀ (budget : CreatorBudget) (cost : ℚ),
       ((request_approval budget cost).approval_status = .auto_approved ↔
         (check_budget_limits budget cost).within_limits = true ∧
         cost ≤ budget.auto_approve_threshold ∧
         determine_cost_tier cost = .low) ∧
       ((request_approval budget cost).approval_status = .auto_approved →
         (request_approval budget cost).approval_request_created = false) ∧
       (determine_cost_tier cost ≠ .low →
         (request_approval budget cost).approval_status ≠ .auto_approved)) ∧
    request_approval defaultBudget (3 / 10) =
      { approval_status := .auto_approved, requires_approval := false,
        approval_request_created := false } := by
  constructor
  · intro budget cost
    cases hW : (check_budget_limits budget cost).within_limits
    · refine ⟨iff_of_false (by simp [request_approval, hW])
        (by rintro ⟨ht, -⟩; exact Bool.false_ne_true (hW ▸ ht)), ?_, ?_⟩
      · intro hx
        simp [request_approval, hW] at hx
      · intro _ hx
        simp [request_approval, hW] at hx
    · by_cases hA : cost ≤ budget.auto_approve_threshold
      · by_cases hT : determine_cost_tier cost = .low
        · have hA2 : (check_budget_limits budget cost).auto_approve = true := by
            simp [check_budget_limits, decide_eq_true hA]
          refine ⟨iff_of_true (by simp [request_approval, hW, hA2,
            decide_eq_true hT]) ⟨rfl, hA, hT⟩, ?_, ?_⟩
          · intro _
            simp [request_approval, hW, hA2, decide_eq_true hT]
          · intro hx
            exact absurd hT hx
        · have hA2 : (check_budget_limits budget cost).auto_approve = true := by
            simp [check_budget_limits, decide_eq_true hA]
          refine ⟨iff_of_false (by simp [request_approval, hW, hA2,
            decide_eq_false hT]) (by rintro ⟨-, -, ht⟩; exact hT ht), ?_, ?_⟩
          · intro hx
            simp [request_approval, hW, hA2, decide_eq_false hT] at hx
          · intro _ hx
            simp [request_approval, hW, hA2, decide_eq_false hT] at hx
      · have hA2 : (check_budget_limits budget cost).auto_approve = false := by
          simp [check_budget_limits, decide_eq_false hA]
        refine ⟨iff_of_false (by simp [request_approval, hW, hA2])
          (by rintro ⟨-, ha, -⟩; exact hA ha), ?_, ?_⟩
        · intro hx
          simp [request_approval, hW, hA2] at hx
        · intro _ hx
          simp [request_approval, hW, hA2] at hx
  · norm_num [request_approval, check_budget_limits, defaultBudget,
      determine_cost_tier, COST_TIERS, List.find?]

/-- C2 witness: the equivalence applied to the default budget at cost 0.30. -/
theorem C2_auto_approval_iff_witness :
    (request_approval defaultBudget (3 / 10)).approval_status =
      .auto_approved ∧
    (request_approval defaultBudget (3 / 10)).approval_request_created =
      false := by
  have h := C2_auto_approval_iff.1 defaultBudget (3 / 10)
  have hW : (check_budget_limits defaultBudget (3 / 10)).within_limits =
      true := by
    norm_num [check_budget_limits, defaultBudget]
  have hT : determine_cost_tier (3 / 10) = .low := by
    norm_num [determine_cost_tier, COST_TIERS, List.find?]
  have hs := h.1.mpr ⟨hW, by norm_num [defaultBudget], hT⟩
  exact ⟨hs, h.2.1 hs⟩

end CostTracker

namespace Router

/-- In the deployed configuration tables, no resolved service entry names
itself as its own fallback. -/
theorem config_no_self_fallback (st : ServiceType) (tier : ServiceTier) :
    (get_service_config st tier).all
      (fun cfg => !(cfg.fallback == some cfg.service)) = true := by
  cases st <;> cases tier <;> decide

/-- C3: whenever the configured primary adapter of a capability/tier raises
a classified provider error and the configured fallback is registered and
succeeds, `generate_content` returns the fallback payload with
`service_used` the fallback id and `fallback_used = true` (and each adapter
was invoked exactly once, primary then fallback). -/
theorem C3_fallback_served {α : Type}
    (gen : ServiceType → String → Except ProviderError α)
    (st : ServiceType) (tier : ServiceTier) (cfg : ServiceEntry)
    (e : ProviderError) (fb : String) (p : α)
    (hc : get_service_config st tier = some cfg)
    (hr : (registered_services st).contains cfg.service = true)
    (hg : gen st cfg.service = .error e)
    (hf : cfg.fallback = some fb)
    (hrf : (registered_services st).contains fb = true)
    (hgf : gen st fb = .ok p) :
    generate_content gen st tier =
      (.ok ⟨p, fb, tier, true⟩, [cfg.service, fb]) := by
  have hr2 : cfg.service ∈ registered_services st := by
    simpa using hr
  have hrf2 : fb ∈ registered_services st := by
    simpa using hrf
  simp [generate_content, hc, hr2, hg, hf, hrf2, hgf]

/-- C3 witness: voice synthesis at premium tier with elevenlabs failing and
azure succeeding. -/
theorem C3_fallback_served_witness :
    generate_content primaryFailsGen .voice_synthesis .premium =
      (.ok ⟨7, "azure", .premium, true⟩, ["elevenlabs", "azure"]) :=
  C3_fallback_served primaryFailsGen .voice_synthesis .premium
    ⟨"elevenlabs", some "azure"⟩ .service_unavailable "azure" 7
    (by decide) (by decide) rfl (by decide) (by decide) rfl

/-- C4: in every execution of `generate_content` each adapter is invoked at
most once (exactly one fallback hop, no retries); and whenever the primary
adapter fails with a classified error and the fallback is missing,
unregistered, or also fails, the call fails with the capability-exhausted
error `AIServiceError("All services failed for ...")`. -/
theorem C4_capability_exhausted {α : Type}
    (gen : ServiceType → String → Except ProviderError α)
    (st : ServiceType) (tier : ServiceTier) :
    (∀ a : String, ((generate_content gen st tier).2.count a) ≤ 1) ∧
    (∀ (cfg : ServiceEntry) (e : ProviderError),
      get_service_config st tier = some cfg →
      (registered_services st).contains cfg.service = true →
      gen st cfg.service = .error e →
      (cfg.fallback = none ∨
       ∃ fb, cfg.fallback = some fb ∧
         ((registered_services st).contains fb = false ∨
          ∃ e2, gen st fb = .error e2)) →
      (generate_content gen st tier).1 = .error (.all_failed st)) := by
  constructor
  · intro a
    have hnodup : (generate_content gen st tier).2.Nodup := by
      unfold generate_content
      cases hc : get_service_config st tier with
      | none => simp
      | some cfg =>
        dsimp only
        by_cases hr : (registered_services st).contains cfg.service = true
        · rw [if_pos hr]
          cases hg : gen st cfg.service with
          | ok p => simp
          | error e =>
            dsimp only
            cases hf : cfg.fallback with
            | none => simp
            | some fb =>
              dsimp only
              by_cases hrf : (registered_services st).contains fb = true
              · rw [if_pos hrf]
                have hneq : cfg.service ≠ fb := by
                  have h := config_no_self_fallback st tier
                  rw [hc] at h
                  simp [Option.all, hf] at h
                  exact fun he => h (he ▸ rfl)
                cases gen st fb <;> simp [hneq]
              · rw [if_neg hrf]
                simp
        · rw [if_neg hr]
          simp
    exact List.nodup_iff_count_le_one.mp hnodup a
  · intro cfg e hc hr hg hx
    have hr2 : cfg.service ∈ registered_services st := by
      simpa using hr
    rcases hx with hf | ⟨fb, hf, hbad⟩
    · simp [generate_content, hc, hr2, hg, hf]
    · rcases hbad with hnr | ⟨e2, hg2⟩
      · have hnr2 : fb ∉ registered_services st := by
          simpa using hnr
        simp [generate_content, hc, hr2, hg, hf, hnr2]
      · by_cases hrf : fb ∈ registered_services st
        · simp [generate_content, hc, hr2, hg, hf, hrf, hg2]
        · simp [generate_content, hc, hr2, hg, hf, hrf]

/-- C4 witness: voice synthesis at premium tier with both elevenlabs and
azure failing - at most one invocation per adapter and a capability
exhausted error. -/
theorem C4_capability_exhausted_witness :
    ((generate_content allFailGen .voice_synthesis .premium).2.count
        "elevenlabs") ≤ 1 ∧
    (generate_content allFailGen .voice_synthesis .premium).1 =
      .error (.all_failed .voice_synthesis) :=
  ⟨(C4_capability_exhausted allFailGen .voice_synthesis .premium).1
      "elevenlabs",
   (C4_capability_exhausted allFailGen .voice_synthesis .premium).2
      ⟨"elevenlabs", some "azure"⟩ .quota_exceeded (by decide) (by decide)
      rfl (Or.inr ⟨"azure", rfl, Or.inr ⟨.quota_exceeded, rfl⟩⟩)⟩

end Router

namespace Cache

theorem splitGroups_ne_nil (l : List Char) : splitGroups l ≠ [] := by
  induction l with
  | nil => simp [splitGroups]
  | cons c cs ih =>
    simp only [splitGroups]
    by_cases h : c.isWhitespace = true
    · simp [h]
    · simp only [h, if_false, Bool.false_eq_true]
      cases hgs : splitGroups cs with
      | nil => simp
      | cons g rest => simp

theorem pySplit_cons_ws {c : Char} (h : c.isWhitespace = true)
    (l : List Char) : pySplit (c :: l) = pySplit l := by
  simp [pySplit, splitGroups, h]

theorem pySplit_dropWhile (l : List Char) :
    pySplit (l.dropWhile Char.isWhitespace) = pySplit l := by
  induction l with
  | nil => rfl
  | cons c cs ih =>
    by_cases h : c.isWhitespace = true
    · rw [List.dropWhile_cons_of_pos h, ih, pySplit_cons_ws h]
    · rw [List.dropWhile_cons_of_neg h]

theorem splitGroups_all_ws {t : List Char}
    (ht : ∀ c ∈ t, c.isWhitespace = true) :
    splitGroups t = List.replicate t.length [] ++ [[]] := by
  induction t with
  | nil => rfl
  | cons c cs ih =>
    have hc := ht c (by simp)
    have ihh := ih (fun x hx => ht x (by simp [hx]))
    simp [splitGroups, hc, ihh, List.replicate_succ]

theorem splitGroups_append_ws {t : List Char}
    (ht : ∀ c ∈ t, c.isWhitespace = true) (l : List Char) :
    splitGroups (l ++ t) = splitGroups l ++ List.replicate t.length [] := by
  induction l with
  | nil =>
    rw [List.nil_append, splitGroups_all_ws ht]
    show List.replicate t.length [] ++ [[]] = splitGroups [] ++ _
    rw [show splitGroups ([] : List Char) = [[]] from rfl,
      ← List.replicate_succ', List.replicate_succ, List.singleton_append]
  | cons c cs ih =>
    by_cases h : c.isWhitespace = true
    · rw [List.cons_append]
      simp [splitGroups, h, ih]
    · have hne := splitGroups_ne_nil cs
      cases hgs : splitGroups cs with
      | nil => exact absurd hgs hne
      | cons g rest =>
        rw [List.cons_append]
        simp only [splitGroups, h, if_false, Bool.false_eq_true, ih, hgs,
          List.cons_append]

theorem filter_replicate_nil (n : Nat) :
    (List.replicate n ([] : List Char)).filter (fun g => !g.isEmpty) =
      [] := by
  induction n with
  | zero => rfl
  | succ n ih => simp [List.replicate_succ, ih]

theorem pySplit_append_ws {t : List Char}
    (ht : ∀ c ∈ t, c.isWhitespace = true) (l : List Char) :
    pySplit (l ++ t) = pySplit l := by
  unfold pySplit
  rw [splitGroups_append_ws ht l, List.filter_append, filter_replicate_nil,
    List.append_nil]

theorem pySplit_strip (l : List Char) : pySplit (pyStrip l) = pySplit l := by
  unfold pyStrip
  have h1 : pySplit (l.dropWhile Char.isWhitespace) = pySplit l :=
    pySplit_dropWhile l
  set m := l.dropWhile Char.isWhitespace with hm
  have hws : ∀ c ∈ (m.reverse.takeWhile Char.isWhitespace).reverse,
      c.isWhitespace = true := by
    intro c hc
    rw [List.mem_reverse] at hc
    exact List.mem_takeWhile_imp hc
  have hdec : (m.reverse.dropWhile Char.isWhitespace).reverse ++
      (m.reverse.takeWhile Char.isWhitespace).reverse = m := by
    rw [← List.reverse_append, List.takeWhile_append_dropWhile,
      List.reverse_reverse]
  calc pySplit (m.reverse.dropWhile Char.isWhitespace).reverse
      = pySplit ((m.reverse.dropWhile Char.isWhitespace).reverse ++
          (m.reverse.takeWhile Char.isWhitespace).reverse) :=
        (pySplit_append_ws hws _).symm
    _ = pySplit m := by rw [hdec]
    _ = pySplit l := h1

/-- The normalized text depends only on the lowercased word sequence. -/
theorem normalize_text_congr {s1 s2 : String}
    (h : wordsLower s1 = wordsLower s2) :
    normalize_text s1 = normalize_text s2 := by
  unfold normalize_text
  rw [pySplit_strip, pySplit_strip]
  unfold wordsLower at h
  rw [h]

theorem normalizeValue_congr {v1 v2 : PValue} (h : PVEquiv v1 v2) :
    normalizeValue v1 = normalizeValue v2 := by
  induction h with
  | str s1 s2 hw => simp [normalizeValue, normalize_text_congr hw]
  | num q => rfl
  | list items => rfl
  | dict_nil => rfl
  | dict_cons k v1 v2 d1 d2 hv hd ihv ihd =>
    simp only [normalizeValue, normalizeEntries] at *
    injection ihd with ihd2
    rw [ihv, ihd2]

theorem normalizeEntries_eq_map (l : List (String × PValue)) :
    normalizeEntries l =
      l.map (fun kv => (kv.1, normalizeValue kv.2)) := by
  induction l with
  | nil => rfl
  | cons kv rest ih =>
    cases kv
    simp [normalizeEntries, ih]

theorem dumpsEntries_eq_map (l : List (String × PValue)) :
    dumpsEntries l =
      l.map (fun kv =>
        (kv.1, "\"" ++ kv.1 ++ "\": " ++ dumpsValue kv.2)) := by
  induction l with
  | nil => rfl
  | cons kv rest ih =>
    cases kv
    simp [dumpsEntries, ih]

/-- Two permuted association lists with duplicate-free keys have the same
key-ordered sort. -/
theorem insertionSort_key_eq {β : Type} (l1 l2 : List (String × β))
    (hperm : l1.Perm l2) (hnodup : (l1.map Prod.fst).Nodup) :
    List.insertionSort (fun a b => a.1 ≤ b.1) l1 =
      List.insertionSort (fun a b => a.1 ≤ b.1) l2 := by
  haveI htot : IsTotal (String × β) (fun a b => a.1 ≤ b.1) :=
    ⟨fun a b => le_total a.1 b.1⟩
  haveI htr : IsTrans (String × β) (fun a b => a.1 ≤ b.1) :=
    ⟨fun a b c hab hbc => le_trans hab hbc⟩
  haveI : IsAntisymm (String × β) (fun a b : String × β => a.1 < b.1) :=
    ⟨fun a b h1 h2 => absurd h1 (lt_asymm h2)⟩
  have hp1 := List.perm_insertionSort (fun a b : String × β => a.1 ≤ b.1) l1
  have hp2 := List.perm_insertionSort (fun a b : String × β => a.1 ≤ b.1) l2
  have hs1 := List.sorted_insertionSort (fun a b : String × β => a.1 ≤ b.1) l1
  have hs2 := List.sorted_insertionSort (fun a b : String × β => a.1 ≤ b.1) l2
  have hn1 : ((List.insertionSort (fun a b => a.1 ≤ b.1) l1).map
      Prod.fst).Nodup := ((hp1.map Prod.fst).nodup_iff).mpr hnodup
  have hn2 : ((List.insertionSort (fun a b => a.1 ≤ b.1) l2).map
      Prod.fst).Nodup := by
    refine ((hp2.map Prod.fst).nodup_iff).mpr ?_
    exact ((hperm.map Prod.fst).nodup_iff).mp hnodup
  have hpair1 := List.pairwise_map.mp hn1
  have hpair2 := List.pairwise_map.mp hn2
  have hst1 : (List.insertionSort (fun a b => a.1 ≤ b.1) l1).Pairwise
      (fun a b : String × β => a.1 < b.1) :=
    (hs1.and hpair1).imp (fun h => lt_of_le_of_ne h.1 h.2)
  have hst2 : (List.insertionSort (fun a b => a.1 ≤ b.1) l2).Pairwise
      (fun a b : String × β => a.1 < b.1) :=
    (hs2.and hpair2).imp (fun h => lt_of_le_of_ne h.1 h.2)
  exact List.eq_of_perm_of_sorted (hp1.trans (hperm.trans hp2.symm)) hst1 hst2

/-- Entrywise equivalent association lists normalize identically. -/
theorem normalize_map_congr {l1 l2 : List (String × PValue)}
    (hf : List.Forall₂ (fun a b => a.1 = b.1 ∧ PVEquiv a.2 b.2) l1 l2) :
    l1.map (fun kv => (kv.1, normalizeValue kv.2)) =
      l2.map (fun kv => (kv.1, normalizeValue kv.2)) := by
  induction hf with
  | nil => rfl
  | cons ha hrest ih =>
    simp only [List.map_cons, ih]
    rw [ha.1, normalizeValue_congr ha.2]

/-- C6: the cache key is invariant under reordering the parameter keys and
under changes of letter case and whitespace inside string values: if `p1x`
matches `p1` entrywise up to case/whitespace of string values and `p2` is a
permutation of `p1x` (keys duplicate-free), then for every digest function
the two cache keys coincide. -/
theorem C6_cache_key_canonical :
    ∀ (hash : String → String) (ct : CacheType)
      (p1 p1x p2 : List (String × PValue)),
      (p1.map Prod.fst).Nodup →
      List.Forall₂ (fun a b => a.1 = b.1 ∧ PVEquiv a.2 b.2) p1 p1x →
      p1x.Perm p2 →
      create_cache_key hash ct p1 = create_cache_key hash ct p2 := by
  intro hash ct p1 p1x p2 hnd hf hperm
  have h1 : normalize_parameters p1 = normalize_parameters p1x := by
    unfold normalize_parameters
    rw [normalizeEntries_eq_map, normalizeEntries_eq_map]
    exact normalize_map_congr hf
  have hperm2 : (normalize_parameters p1x).Perm (normalize_parameters p2) := by
    unfold normalize_parameters
    rw [normalizeEntries_eq_map, normalizeEntries_eq_map]
    exact hperm.map _
  have hfst : (Prod.fst ∘ fun kv : String × PValue =>
      (kv.1, normalizeValue kv.2)) = Prod.fst := funext fun kv => rfl
  have hndn : ((normalize_parameters p1).map Prod.fst).Nodup := by
    unfold normalize_parameters
    rw [normalizeEntries_eq_map, List.map_map, hfst]
    exact hnd
  suffices hkey : dumps_sorted (normalize_parameters p1) =
      dumps_sorted (normalize_parameters p2) by
    unfold create_cache_key
    rw [hkey]
  rw [h1]
  unfold dumps_sorted
  simp only [dumpsValue]
  have hdp : (dumpsEntries (normalize_parameters p1x)).Perm
      (dumpsEntries (normalize_parameters p2)) := by
    rw [dumpsEntries_eq_map, dumpsEntries_eq_map]
    exact hperm2.map _
  have hdn : ((dumpsEntries (normalize_parameters p1x)).map
      Prod.fst).Nodup := by
    rw [dumpsEntries_eq_map, List.map_map]
    have hfst2 : (Prod.fst ∘ fun kv : String × PValue =>
        (kv.1, "\"" ++ kv.1 ++ "\": " ++ dumpsValue kv.2)) = Prod.fst :=
      funext fun kv => rfl
    rw [hfst2, ← h1]
    unfold normalize_parameters at hndn ⊢
    rw [normalizeEntries_eq_map, List.map_map, hfst]
    rw [normalizeEntries_eq_map, List.map_map, hfst] at hndn
    exact hndn
  rw [insertionSort_key_eq _ _ hdp hdn]

/-- C6 witness: `[("b", "Hello  World"), ("a", 1)]` against
`[("a", 1), ("b", "hello world")]` with the identity digest. -/
theorem C6_cache_key_canonical_witness :
    ([("b", PValue.str "Hello  World"), ("a", PValue.num 1)].map
      Prod.fst).Nodup ∧
    create_cache_key (fun s => s) .script
        [("b", PValue.str "Hello  World"), ("a", PValue.num 1)] =
      create_cache_key (fun s => s) .script
        [("a", PValue.num 1), ("b", PValue.str "hello world")] :=
  ⟨by decide,
   C6_cache_key_canonical (fun s => s) .script
     [("b", PValue.str "Hello  World"), ("a", PValue.num 1)]
     [("b", PValue.str "hello world"), ("a", PValue.num 1)]
     [("a", PValue.num 1), ("b", PValue.str "hello world")]
     (by decide)
     (List.Forall₂.cons ⟨rfl, PVEquiv.str _ _ (by decide)⟩
       (List.Forall₂.cons ⟨rfl, PVEquiv.num 1⟩ List.Forall₂.nil))
     (List.Perm.swap _ _ _)⟩

end Cache

namespace Cache

theorem exactPred_true {key : String} {now : Nat} {e : Entry}
    (h : exactPred key now e = true) :
    e.cache_key = key ∧ e.is_active = true ∧ now < e.expires_at := by
  simp [exactPred] at h
  tauto

theorem alivePred_true {ct : CacheType} {now : Nat} {e : Entry}
    (h : alivePred ct now e = true) :
    e.cache_type = ct ∧ e.is_active = true ∧ now < e.expires_at := by
  simp [alivePred] at h
  tauto

theorem semantic_candidates_mem {ct : CacheType} {ag : String}
    {db : List Entry} {now : Nat} {e : Entry}
    (h : e ∈ semantic_candidates ct ag db now) :
    e ∈ db ∧ e.cache_type = ct ∧ e.is_active = true ∧ now < e.expires_at := by
  unfold semantic_candidates at h
  have h2 := List.mem_of_mem_take h
  have h3 := List.mem_filter.mp h2
  have h4 := h3.2
  simp at h4
  refine ⟨h3.1, ?_, ?_, ?_⟩ <;> tauto

/-- Any entry the best-candidate scan settles on comes from the scanned
list with similarity strictly above the 0.80 threshold (unless it was the
incoming accumulator). -/
theorem semantic_loop_sound (concept : String) :
    ∀ (l : List Entry) (b : Option Entry) (s : ℚ) (e : Entry),
      semantic_loop concept l b s = some (some e) →
      (e ∈ l ∧ (4 : ℚ) / 5 < storedSimilarity concept e) ∨ b = some e := by
  intro l
  induction l with
  | nil =>
    intro b s e h
    right
    injection h
  | cons x rest ih =>
    intro b s e h
    unfold semantic_loop at h
    cases hsc : stored_concept x with
    | none =>
      rw [hsc] at h
      exact absurd h (by simp)
    | some sc =>
      rw [hsc] at h
      dsimp only at h
      by_cases hcond :
          s < calculate_text_similarity (lowerStr concept) (lowerStr sc) ∧
          (4 : ℚ) / 5 <
            calculate_text_similarity (lowerStr concept) (lowerStr sc)
      · rw [if_pos hcond] at h
        rcases ih _ _ e h with ⟨hmem, hsim⟩ | hbe
        · exact Or.inl ⟨List.mem_cons_of_mem _ hmem, hsim⟩
        · injection hbe with hbe2
          refine Or.inl ⟨by simp [hbe2], ?_⟩
          unfold storedSimilarity
          rw [← hbe2, hsc]
          exact hcond.2
      · rw [if_neg hcond] at h
        rcases ih _ _ e h with ⟨hmem, hsim⟩ | hbe
        · exact Or.inl ⟨List.mem_cons_of_mem _ hmem, hsim⟩
        · exact Or.inr hbe

/-- C7 counterexample to the claim as stated: a payload cached at time 0
into the durable tier only (voice TTL 1209600 s), back-filled into the
volatile tier at time 1209599 with the full TTL, is still served by the
exact-match volatile fast path at time 1209600 although every durable row
for its key (content "stale payload") is expired at that instant. -/
theorem C7_expired_entry_served_counterexample :
    c7_out.1 = some "stale payload" ∧
    (c7_step.2.2).length = 1 ∧
    (c7_step.2.2).all (fun e =>
      (e.cache_key == create_cache_key (fun s => s) .voice []) &&
      (e.content_data == "stale payload") &&
      decide (e.expires_at ≤ 1209600)) = true := by
  decide

/-- C7 amended: the durable-tier paths of all four lookup strategies only
ever return an entry that is active and unexpired at lookup time (for exact
match: when the volatile tier missed); the volatile fast path performs no
such re-check. -/
theorem C7_durable_lookups_validated :
    ∀ (hash : String → String) (ct : CacheType)
      (params : List (String × PValue)) (redis : RedisState)
      (db : List Entry) (now : Nat) (data : String),
      (redisGet redis (create_cache_key hash ct params) now = none →
        (get_exact_match hash ct params redis db now).1 = some data →
        ∃ e ∈ db, e.is_active = true ∧ now < e.expires_at ∧
          e.cache_key = create_cache_key hash ct params ∧
          e.content_data = data) ∧
      ((get_semantic_match ct params db now).1 = some data →
        ∃ e ∈ db, e.is_active = true ∧ now < e.expires_at ∧
          e.content_data = data) ∧
      ((get_fuzzy_match ct params db now).1 = some data →
        ∃ e ∈ db, e.is_active = true ∧ now < e.expires_at ∧
          e.content_data = data) ∧
      ((get_template_match ct params db now).1 = some data →
        ∃ e ∈ db, e.is_active = true ∧ now < e.expires_at ∧
          e.content_data = data) := by
  intro hash ct params redis db now data
  refine ⟨?_, ?_, ?_, ?_⟩
  · intro hmiss hres
    unfold get_exact_match at hres
    rw [hmiss] at hres
    dsimp only at hres
    cases hf : db.find? (exactPred (create_cache_key hash ct params) now) with
    | none =>
      rw [hf] at hres
      exact absurd hres (by simp)
    | some e =>
      rw [hf] at hres
      dsimp only at hres
      have hpred := List.find?_some hf
      have hmem := List.mem_of_find?_eq_some hf
      obtain ⟨hk, ha, ht⟩ := exactPred_true hpred
      cases redis with
      | none =>
        simp only at hres
        exact ⟨e, hmem, ha, ht, hk, by simpa using hres⟩
      | some store =>
        cases htl : cacheTtl ct with
        | some ttl =>
          rw [htl] at hres
          dsimp only at hres
          exact ⟨e, hmem, ha, ht, hk, by simpa using hres⟩
        | none =>
          rw [htl] at hres
          exact absurd hres (by simp)
  · intro hres
    unfold get_semantic_match at hres
    cases hcc : semantic_concept params with
    | none =>
      rw [hcc] at hres
      exact absurd hres (by simp)
    | some concept =>
      rw [hcc] at hres
      cases hag : semantic_age_group params with
      | none =>
        rw [hag] at hres
        exact absurd hres (by simp)
      | some age_group =>
        rw [hag] at hres
        dsimp only at hres
        cases hloop : semantic_loop concept
            (semantic_candidates ct age_group db now) none 0 with
        | none =>
          rw [hloop] at hres
          exact absurd hres (by simp)
        | some ob =>
          cases ob with
          | none =>
            rw [hloop] at hres
            exact absurd hres (by simp)
          | some best =>
            rw [hloop] at hres
            dsimp only at hres
            rcases semantic_loop_sound concept _ _ _ _ hloop with
              ⟨hmem, hsim⟩ | hnone
            · obtain ⟨hdb, -, ha, ht⟩ := semantic_candidates_mem hmem
              exact ⟨best, hdb, ha, ht, by simpa using hres⟩
            · exact absurd hnone (by simp)
  · intro hres
    unfold get_fuzzy_match at hres
    cases hf : ((db.filter (alivePred ct now)).take 20).find?
        (fun e => parameters_fuzzy_match (normalize_parameters params)
          e.normalized_params) with
    | none =>
      rw [hf] at hres
      exact absurd hres (by simp)
    | some entry =>
      rw [hf] at hres
      dsimp only at hres
      have hmem := List.mem_of_find?_eq_some hf
      have hdb := List.mem_filter.mp (List.mem_of_mem_take hmem)
      obtain ⟨-, ha, ht⟩ := alivePred_true hdb.2
      exact ⟨entry, hdb.1, ha, ht, by simpa using hres⟩
  · intro hres
    unfold get_template_match at hres
    cases hf : (db.filter (alivePred ct now)).find?
        (fun e => template_parameters_match (template_params params)
          e.normalized_params) with
    | none =>
      rw [hf] at hres
      exact absurd hres (by simp)
    | some entry =>
      rw [hf] at hres
      dsimp only at hres
      have hmem := List.mem_of_find?_eq_some hf
      have hdb := List.mem_filter.mp hmem
      obtain ⟨-, ha, ht⟩ := alivePred_true hdb.2
      exact ⟨entry, hdb.1, ha, ht, by simpa using hres⟩

/-- C7 witness: the exact-match durable path applied to a live voice row at
time 90. -/
theorem C7_durable_lookups_validated_witness :
    redisGet none (create_cache_key (fun s => s) .voice []) 90 = none ∧
    ∃ e ∈ [c9_entry], e.is_active = true ∧ 90 < e.expires_at ∧
      e.cache_key = create_cache_key (fun s => s) .voice [] ∧
      e.content_data = "cached audio" :=
  ⟨rfl,
   (C7_durable_lookups_validated (fun s => s) .voice [] none [c9_entry] 90
     "cached audio").1 rfl (by decide)⟩

end Cache

namespace Cache

/-- The row the durable query returned is the one `replaceFirst` mutates. -/
theorem find?_replaceFirst {p : Entry → Bool} {f : Entry → Entry} :
    ∀ {db : List Entry} {e : Entry}, db.find? p = some e →
      ∃ pre post, db = pre ++ e :: post ∧
        replaceFirst p f db = pre ++ f e :: post := by
  intro db
  induction db with
  | nil =>
    intro e h
    simp [List.find?] at h
  | cons x rest ih =>
    intro e h
    by_cases hp : p x = true
    · rw [List.find?_cons_of_pos _ hp] at h
      injection h with h2
      subst h2
      exact ⟨[], rest, rfl, by simp [replaceFirst, hp]⟩
    · rw [List.find?_cons_of_neg _ (by simpa using hp)] at h
      obtain ⟨pre, post, h1, h2⟩ := ih h
      exact ⟨x :: pre, post, by simp [h1], by simp [replaceFirst, hp, h2]⟩

/-- C9 counterexample to the claim as stated: a voice row with 10 seconds
of remaining life (expiry 100, lookup at 90) is back-filled into the
volatile tier with expiry 90 + 1209600 (the full 14-day configured TTL),
not with the remaining TTL (which would expire the volatile record at
100); the volatile tier go on serving the payload at time 200, after the
durable expiry. -/
theorem C9_backfill_ttl_counterexample :
    (get_exact_match (fun s => s) .voice [] (some []) [c9_entry] 90).1 =
      some "cached audio" ∧
    (get_exact_match (fun s => s) .voice [] (some []) [c9_entry] 90).2.1 =
      some [⟨create_cache_key (fun s => s) .voice [], "cached audio",
        90 + 86400 * 14⟩] ∧
    (90 + 86400 * 14 : Nat) ≠ 100 ∧
    redisGet
      (get_exact_match (fun s => s) .voice [] (some []) [c9_entry] 90).2.1
      (create_cache_key (fun s => s) .voice []) 200 = some "cached audio" := by
  refine ⟨by decide, by decide, by decide, by decide⟩

/-- C9 amended: on an exact-match lookup that misses the volatile tier and
hits the durable tier, the payload is written back to the volatile tier
with expiry now + (full configured cache-type TTL) - not the entry's
remaining TTL - and the durable row's hit count is incremented by one (hit
statistics live only in the durable tier; the volatile tier stores the bare
payload). -/
theorem C9_backfill_full_ttl :
    ∀ (hash : String → String) (ct : CacheType)
      (params : List (String × PValue)) (store : List RedisEntry)
      (db : List Entry) (now : Nat) (e : Entry) (ttl : Nat),
      redisGet (some store) (create_cache_key hash ct params) now = none →
      db.find? (exactPred (create_cache_key hash ct params) now) = some e →
      cacheTtl ct = some ttl →
      get_exact_match hash ct params (some store) db now =
        (some e.content_data,
         some (⟨create_cache_key hash ct params, e.content_data,
           now + ttl⟩ ::
           store.filter (fun r =>
             !(r.key == create_cache_key hash ct params))),
         replaceFirst (exactPred (create_cache_key hash ct params) now)
           (bumpEntry now) db) ∧
      ∃ pre post, db = pre ++ e :: post ∧
        (get_exact_match hash ct params (some store) db now).2.2 =
          pre ++ bumpEntry now e :: post ∧
        (bumpEntry now e).hit_count = e.hit_count + 1 := by
  intro hash ct params store db now e ttl hmiss hf httl
  have hmain : get_exact_match hash ct params (some store) db now =
      (some e.content_data,
       some (⟨create_cache_key hash ct params, e.content_data,
         now + ttl⟩ ::
         store.filter (fun r =>
           !(r.key == create_cache_key hash ct params))),
       replaceFirst (exactPred (create_cache_key hash ct params) now)
         (bumpEntry now) db) := by
    unfold get_exact_match
    rw [hmiss, hf, httl]
    simp [redisSetex]
  refine ⟨hmain, ?_⟩
  obtain ⟨pre, post, h1, h2⟩ :=
    find?_replaceFirst (f := bumpEntry now) hf
  exact ⟨pre, post, h1, by rw [hmain]; exact h2, rfl⟩

/-- C9 witness: the amended behavior at the concrete stale-backfill
state. -/
theorem C9_backfill_full_ttl_witness :
    redisGet (some []) (create_cache_key (fun s => s) .voice []) 90 =
      none ∧
    get_exact_match (fun s => s) .voice [] (some []) [c9_entry] 90 =
      (some c9_entry.content_data,
       some [⟨create_cache_key (fun s => s) .voice [],
         c9_entry.content_data, 90 + 1209600⟩],
       replaceFirst (exactPred (create_cache_key (fun s => s) .voice []) 90)
         (bumpEntry 90) [c9_entry]) ∧
    ∃ pre post, [c9_entry] = pre ++ c9_entry :: post ∧
      (get_exact_match (fun s => s) .voice [] (some []) [c9_entry] 90).2.2 =
        pre ++ bumpEntry 90 c9_entry :: post ∧
      (bumpEntry 90 c9_entry).hit_count = c9_entry.hit_count + 1 :=
  ⟨rfl,
   (C9_backfill_full_ttl (fun s => s) .voice [] [] [c9_entry] 90 c9_entry
     1209600 rfl rfl rfl).1,
   (C9_backfill_full_ttl (fun s => s) .voice [] [] [c9_entry] 90 c9_entry
     1209600 rfl rfl rfl).2⟩

end Cache

namespace Cache

/-- C8: a semantic-match lookup returns a payload only when some cached
entry's token-set Jaccard similarity with the query concept strictly
exceeds the 0.80 threshold; whenever every entry is at or below the
threshold, no match is returned; in particular the stored prompt
"the water cycle explained simply" against the new prompt
"water cycle explained simply for kids" (Jaccard 4/7) yields no match. -/
theorem C8_semantic_threshold :
    (∀ (ct : CacheType) (params : List (String × PValue))
       (db : List Entry) (now : Nat) (data : String),
       (get_semantic_match ct params db now).1 = some data →
       ∃ concept e, semantic_concept params = some concept ∧ e ∈ db ∧
         data = e.content_data ∧
         (4 : ℚ) / 5 < storedSimilarity concept e) ∧
    (∀ (ct : CacheType) (params : List (String × PValue))
       (db : List Entry) (now : Nat),
       (∀ concept, semantic_concept params = some concept →
         ∀ e ∈ db, storedSimilarity concept e ≤ 4 / 5) →
       (get_semantic_match ct params db now).1 = none) ∧
    (get_semantic_match .script c8_params [c8_entry] 0).1 = none := by
  have part1 : ∀ (ct : CacheType) (params : List (String × PValue))
      (db : List Entry) (now : Nat) (data : String),
      (get_semantic_match ct params db now).1 = some data →
      ∃ concept e, semantic_concept params = some concept ∧ e ∈ db ∧
        data = e.content_data ∧
        (4 : ℚ) / 5 < storedSimilarity concept e := by
    intro ct params db now data hres
    unfold get_semantic_match at hres
    cases hcc : semantic_concept params with
    | none =>
      rw [hcc] at hres
      exact absurd hres (by simp)
    | some concept =>
      rw [hcc] at hres
      cases hag : semantic_age_group params with
      | none =>
        rw [hag] at hres
        exact absurd hres (by simp)
      | some age_group =>
        rw [hag] at hres
        dsimp only at hres
        cases hloop : semantic_loop concept
            (semantic_candidates ct age_group db now) none 0 with
        | none =>
          rw [hloop] at hres
          exact absurd hres (by simp)
        | some ob =>
          cases ob with
          | none =>
            rw [hloop] at hres
            exact absurd hres (by simp)
          | some best =>
            rw [hloop] at hres
            dsimp only at hres
            rcases semantic_loop_sound concept _ _ _ _ hloop with
              ⟨hmem, hsim⟩ | hnone
            · exact ⟨concept, best, rfl,
                (semantic_candidates_mem hmem).1,
                by simpa using hres.symm, hsim⟩
            · exact absurd hnone (by simp)
  have part2 : ∀ (ct : CacheType) (params : List (String × PValue))
      (db : List Entry) (now : Nat),
      (∀ concept, semantic_concept params = some concept →
        ∀ e ∈ db, storedSimilarity concept e ≤ 4 / 5) →
      (get_semantic_match ct params db now).1 = none := by
    intro ct params db now hbound
    cases hres : (get_semantic_match ct params db now).1 with
    | none => rfl
    | some data =>
      obtain ⟨concept, e, hc, hmem, -, hsim⟩ :=
        part1 ct params db now data hres
      exact absurd hsim (not_lt.mpr (hbound concept hc e hmem))
  refine ⟨part1, part2, ?_⟩
  have hsim : storedSimilarity "water cycle explained simply for kids"
      c8_entry = 4 / 7 := by
    unfold storedSimilarity
    rw [show stored_concept c8_entry =
      some "the water cycle explained simply" from rfl]
    dsimp only
    unfold calculate_text_similarity
    dsimp only
    rw [if_neg (by decide)]
    rw [show ((((pySplit (lowerStr
        "water cycle explained simply for kids").data).map
        (fun w => String.mk w)).toFinset ∩
        ((pySplit (lowerStr
        "the water cycle explained simply").data).map
        (fun w => String.mk w)).toFinset).card) = 4 from by decide]
    rw [show ((((pySplit (lowerStr
        "water cycle explained simply for kids").data).map
        (fun w => String.mk w)).toFinset ∪
        ((pySplit (lowerStr
        "the water cycle explained simply").data).map
        (fun w => String.mk w)).toFinset).card) = 7 from by decide]
    norm_num
  refine part2 .script c8_params [c8_entry] 0 ?_
  intro c hc e he
  have hc2 : c = "water cycle explained simply for kids" := by
    have hval : semantic_concept c8_params =
        some "water cycle explained simply for kids" := by decide
    rw [hval] at hc
    injection hc with h2
    exact h2.symm
  have he2 : e = c8_entry := by simpa using he
  rw [hc2, he2, hsim]
  norm_num

/-- C8 witness: the threshold bound applied to the concrete scenario
state. -/
theorem C8_semantic_threshold_witness :
    (get_semantic_match .script c8_params [c8_entry] 55).1 = none :=
  C8_semantic_threshold.2.1 .script c8_params [c8_entry] 55
    (by
      intro c hc e he
      have hval : semantic_concept c8_params =
          some "water cycle explained simply for kids" := by decide
      rw [hval] at hc
      injection hc with h2
      have he2 : e = c8_entry := by simpa using he
      rw [← h2, he2]
      rw [show storedSimilarity "water cycle explained simply for kids"
        c8_entry =
          calculate_text_similarity
            (lowerStr "water cycle explained simply for kids")
            (lowerStr "the water cycle explained simply") from rfl]
      unfold calculate_text_similarity
      dsimp only
      rw [if_neg (by decide)]
      rw [show ((((pySplit (lowerStr
          "water cycle explained simply for kids").data).map
          (fun w => String.mk w)).toFinset ∩
          ((pySplit (lowerStr
          "the water cycle explained simply").data).map
          (fun w => String.mk w)).toFinset).card) = 4 from by decide]
      rw [show ((((pySplit (lowerStr
          "water cycle explained simply for kids").data).map
          (fun w => String.mk w)).toFinset ∪
          ((pySplit (lowerStr
          "the water cycle explained simply").data).map
          (fun w => String.mk w)).toFinset).card) = 7 from by decide]
      norm_num)

end Cache

namespace Cache

mutual

theorem pvBeq_refl : ∀ v : PValue, pvBeq v v = true
  | .str s => by simp [pvBeq]
  | .num q => by simp [pvBeq]
  | .list items => by
      show pvBeqList items items = true
      exact pvBeqList_refl items
  | .dict entries => by
      show pvBeqEntries entries entries = true
      exact pvBeqEntries_refl entries

theorem pvBeqList_refl : ∀ l : List PValue, pvBeqList l l = true
  | [] => rfl
  | x :: xs => by
      show (pvBeq x x && pvBeqList xs xs) = true
      rw [pvBeq_refl x, pvBeqList_refl xs]
      rfl

theorem pvBeqEntries_refl :
    ∀ l : List (String × PValue), pvBeqEntries l l = true
  | [] => rfl
  | (k, v) :: rest => by
      show (k == k && pvBeq v v && pvBeqEntries rest rest) = true
      simp [pvBeq_refl v, pvBeqEntries_refl rest]

end

theorem option_pvBeq_refl (x : Option PValue) : (x == x) = true := by
  cases x with
  | none => rfl
  | some v =>
    show pvBeq v v = true
    exact pvBeq_refl v

/-- A soft key missing on either side leaves both counters untouched. -/
theorem fuzzy_soft_step_skip {p1 p2 : List (String × PValue)} {k : String}
    {acc : Nat × Nat} (h : pvGet k p1 = none ∨ pvGet k p2 = none) :
    fuzzy_soft_step p1 p2 acc k = acc := by
  unfold fuzzy_soft_step
  rcases h with h | h
  · rw [h]
  · rw [h]
    cases pvGet k p1 <;> rfl

/-- C10: whenever the two hard keys agree under `dict.get` (both sides
missing a key agree as `None`) and every soft key is missing on at least
one side, `_parameters_fuzzy_match` accepts the pair; hence a fuzzy-match
lookup can return a cached entry with no soft-key similarity evidence at
all, as the concrete image lookup shows. -/
theorem C10_fuzzy_no_soft_evidence :
    (∀ p1 p2 : List (String × PValue),
      (∀ k ∈ key_params, pvGet k p1 = pvGet k p2) →
      (∀ k ∈ fuzzy_params, pvGet k p1 = none ∨ pvGet k p2 = none) →
      parameters_fuzzy_match p1 p2 = true) ∧
    parameters_fuzzy_match (normalize_parameters c10_params)
      c10_entry.normalized_params = true ∧
    (get_fuzzy_match .image c10_params [c10_entry] 0).1 =
      some "image url" := by
  refine ⟨?_, by decide, by decide⟩
  intro p1 p2 hhard hsoft
  unfold parameters_fuzzy_match
  have hall : (key_params.all fun k => pvGet k p1 == pvGet k p2) = true := by
    rw [List.all_eq_true]
    intro k hk
    rw [hhard k hk]
    exact option_pvBeq_refl _
  rw [if_pos hall]
  have h1 := hsoft "difficulty_level" (by simp [fuzzy_params])
  have h2 := hsoft "duration" (by simp [fuzzy_params])
  have hfold : fuzzy_params.foldl (fuzzy_soft_step p1 p2)
      ((0 : Nat), (0 : Nat)) = ((0 : Nat), (0 : Nat)) := by
    show List.foldl (fuzzy_soft_step p1 p2) ((0 : Nat), (0 : Nat))
      ["difficulty_level", "duration"] = ((0 : Nat), (0 : Nat))
    rw [List.foldl_cons, fuzzy_soft_step_skip h1, List.foldl_cons,
      fuzzy_soft_step_skip h2, List.foldl_nil]
  rw [hfold]
  simp

/-- C10 witness: the acceptance applied to the normalized query against the
stored parameters of the scenario entry (hard keys equal, soft keys missing
on both sides). -/
theorem C10_fuzzy_no_soft_evidence_witness :
    parameters_fuzzy_match (normalize_parameters c10_params)
      c10_entry.normalized_params = true :=
  C10_fuzzy_no_soft_evidence.1 (normalize_parameters c10_params)
    c10_entry.normalized_params
    (by intro k hk; fin_cases hk <;> rfl)
    (by intro k hk; fin_cases hk <;> exact Or.inl rfl)

end Cache
